import Mathlib

/-
Verification of the keyword ranking engine of WB-Ranker-Bot.

The definitions below are a shallow embedding of the Python sources:
  app/utils.py       (calculate_position, format_price)
  app/ports.py       (Product, SearchResult data model)
  app/wb_adapter.py  (WBAPIAdapter: response classification, page scan,
                      retry loop)
  app/services.py    (RankingServiceImpl: batched orchestration and
                      statistics accumulation)

Python exceptions are modelled with Except String; the string carries the
exception class and message.  Sleeps performed by the adapter are recorded
in an explicit trace.  Machine floats of the source are modelled as Rat.
-/

namespace WBRanker

/-- Product model from app/ports.py (pydantic BaseModel). -/
structure Product where
  id : Int
  name : String
  price_rub : Rat
  brand : String
  rating : Rat
  feedbacks : Int
deriving DecidableEq, Repr

/-- Search result for a single keyword, from app/ports.py.  Field
total_pages_searched has no default in the source model, so constructing a
SearchResult without it raises a pydantic ValidationError. -/
structure SearchResult where
  keyword : String
  product : Option Product
  position : Option Int
  page : Option Int
  total_pages_searched : Int
  error : Option String
deriving DecidableEq, Repr

/-- calculate_position from app/utils.py.  Raises ValueError (modelled as
Except.error) when page < 1 or index_on_page < 0, otherwise returns
(page - 1) * items_per_page + index_on_page + 1.  The source gives
items_per_page a default of 100; callers here pass 100 explicitly. -/
def calculate_position (page index_on_page items_per_page : Int) :
    Except String Int :=
  if page < 1 ∨ index_on_page < 0 then
    Except.error ("Page must be >= 1 and index must be >= 0")
  else
    Except.ok ((page - 1) * items_per_page + index_on_page + 1)

/-- format_price from app/utils.py restricted to an integer argument:
price in kopecks divided by 100. -/
def format_price (price_kopecks : Int) : Rat :=
  (price_kopecks : Rat) / 100

/-- Claim C2: calculate_position returns the documented formula on valid
arguments (page 2, index 5, page_size 100 giving 106) and fails with the
InvalidArgument error on page < 1 or index < 0. -/
theorem claim_C2_calculate_position :
    (∀ page index ps : Int, 1 ≤ page → 0 ≤ index →
      calculate_position page index ps =
        Except.ok ((page - 1) * ps + index + 1)) ∧
    (∀ page index ps : Int, page < 1 ∨ index < 0 →
      calculate_position page index ps =
        Except.error ("Page must be >= 1 and index must be >= 0")) ∧
    calculate_position 2 5 100 = Except.ok 106 := by
  refine ⟨?_, ?_, rfl⟩
  · intro page index ps hp hi
    have h : ¬ (page < 1 ∨ index < 0) := by omega
    simp [calculate_position, h]
  · intro page index ps h
    simp [calculate_position, h]

/-- Witness for claim C2 at page 2, index 5, page size 100 and at the
invalid input page 0. -/
theorem claim_C2_witness :
    calculate_position 2 5 100 = Except.ok ((2 - 1) * 100 + 5 + 1) ∧
    calculate_position 0 5 100 =
      Except.error ("Page must be >= 1 and index must be >= 0") :=
  ⟨claim_C2_calculate_position.1 2 5 100 (by decide) (by decide),
   claim_C2_calculate_position.2.1 0 5 100 (Or.inl (by decide))⟩

/-- JSON values as produced by json.loads.  Numbers are modelled as
integers (the ranking code only inspects integral fields). -/
inductive JValue where
  | jnull : JValue
  | jbool (b : Bool) : JValue
  | jnum (n : Int) : JValue
  | jstr (s : String) : JValue
  | jarr (xs : List JValue) : JValue
  | jobj (fields : List (String × JValue)) : JValue

/-- Lookup of a key in a JSON object field list (dict indexing). -/
def jLookup (fields : List (String × JValue)) (key : String) :
    Option JValue :=
  match fields with
  | [] => none
  | (k, v) :: rest => if k = key then some v else jLookup rest key

/-- Python dict.get(key, default) on a JSON value: succeeds only on
objects; on any other value the attribute access raises AttributeError. -/
def jGetD (v : JValue) (key : String) (dflt : JValue) :
    Except String JValue :=
  match v with
  | JValue.jobj fields => Except.ok ((jLookup fields key).getD dflt)
  | _ => Except.error ("AttributeError: no attribute get")

/-- Python truthiness of a JSON value. -/
def pyTruthy (v : JValue) : Bool :=
  match v with
  | JValue.jnull => false
  | JValue.jbool b => b
  | JValue.jnum n => n ≠ 0
  | JValue.jstr s => s ≠ ""
  | JValue.jarr xs => !xs.isEmpty
  | JValue.jobj fields => !fields.isEmpty

/-- Python iteration over a JSON value: lists yield elements, dicts yield
their keys, strings yield one-character strings; other values raise
TypeError (modelled as none). -/
def pyIter (v : JValue) : Option (List JValue) :=
  match v with
  | JValue.jarr xs => some xs
  | JValue.jobj fields => some (fields.map (fun f => JValue.jstr f.1))
  | JValue.jstr s => some (s.data.map (fun c => JValue.jstr (String.mk [c])))
  | _ => none

/-- Python x or y: x when truthy, otherwise y. -/
def pyOr (x y : JValue) : JValue :=
  if pyTruthy x then x else y

/-- Python x == 0 for a JSON value: true for the number 0 and for False
(bool is an int in Python), false otherwise. -/
def pyEqZero (v : JValue) : Bool :=
  match v with
  | JValue.jnum n => n = 0
  | JValue.jbool b => !b
  | _ => false

/-- format_price applied to the price value extracted from JSON:
None yields 0.0, numbers divide by 100, booleans coerce to 0 or 1
(Python bool is an int); any other type raises TypeError. -/
def formatPriceJ (v : JValue) : Except String Rat :=
  match v with
  | JValue.jnull => Except.ok 0
  | JValue.jnum n => Except.ok (format_price n)
  | JValue.jbool b => Except.ok (format_price (if b then 1 else 0))
  | _ => Except.error ("TypeError: unsupported operand")

/-- Python int() applied to a string: optional surrounding whitespace,
optional sign, then decimal digits; anything else raises ValueError
(modelled as none).  Digit-group underscores of Python are not modelled —
no caller in the repository relies on them. -/
def pyInt? (s : String) : Option Int :=
  let digits := fun (ds : List Char) =>
    if ds ≠ [] ∧ ds.all Char.isDigit then
      some (ds.foldl (fun (acc : Nat) c => acc * 10 + (c.toNat - 48)) 0)
    else none
  let stripped :=
    (((s.data.dropWhile Char.isWhitespace).reverse.dropWhile
        Char.isWhitespace).reverse)
  match stripped with
  | '+' :: rest => (digits rest).map (fun n => (n : Int))
  | '-' :: rest => (digits rest).map (fun n => -(n : Int))
  | ds => (digits ds).map (fun n => (n : Int))

/-- The price-extraction steps of one loop iteration of
WBAPIAdapter._parse_products (app/wb_adapter.py lines 293-308): read the
sizes list, take the price object of the first size with fallbacks
product/total/basic, then fall back to salePriceU/priceU when zero. -/
def extractPriceField (pd : JValue) : Except String JValue := do
  let sizes ← jGetD pd ("sizes") (JValue.jarr [])
  let priceK ←
    match sizes with
    | JValue.jarr (first :: _) =>
      -- pyTruthy of a nonempty list holds, and isinstance(sizes, list)
      match first with
      | JValue.jobj ffields =>
        match jLookup ffields ("price") with
        | some priceInfo => do
          let p1 ← jGetD priceInfo ("product") JValue.jnull
          let p2 ← jGetD priceInfo ("total") JValue.jnull
          let p3 ← jGetD priceInfo ("basic") JValue.jnull
          pure (pyOr p1 (pyOr p2 (pyOr p3 (JValue.jnum 0))))
        | none => pure (JValue.jnum 0)
      | _ => pure (JValue.jnum 0)
    | _ => pure (JValue.jnum 0)
  if pyEqZero priceK then do
    let sp ← jGetD pd ("salePriceU") JValue.jnull
    let pu ← jGetD pd ("priceU") (JValue.jnum 0)
    pure (pyOr sp pu)
  else
    pure priceK

/-- One loop iteration of WBAPIAdapter._parse_products: parse a single
product entry.  Except.error models an AttributeError escaping the inner
handler; ok none models an entry skipped by the inner
except (KeyError, ValueError, TypeError) — a missing id key or a pydantic
ValidationError (a ValueError) from a field of the wrong shape; ok (some p)
is a parsed product.  Pydantic coercion of numeric strings is modelled for
the integer id field. -/
def parseEntry (pd : JValue) : Except String (Option Product) :=
  match pd with
  | JValue.jobj pfields =>
    match extractPriceField pd with
    | Except.error e => Except.error e
    | Except.ok priceK =>
      match jLookup pfields ("id") with
      | none => Except.ok none
      | some idv =>
        let idn? :=
          match idv with
          | JValue.jnum n => some n
          | JValue.jstr s => pyInt? s
          | _ => none
        match idn? with
        | none => Except.ok none
        | some idn =>
          match formatPriceJ priceK with
          | Except.error _ => Except.ok none
          | Except.ok price =>
            let namev := ((jLookup pfields ("name")).getD (JValue.jstr ""))
            let brandv := ((jLookup pfields ("brand")).getD (JValue.jstr ""))
            let ratingv :=
              ((jLookup pfields ("reviewRating")).getD (JValue.jnum 0))
            let feedv := ((jLookup pfields ("feedbacks")).getD (JValue.jnum 0))
            match namev, brandv, ratingv, feedv with
            | JValue.jstr nm, JValue.jstr br, JValue.jnum ra,
              JValue.jnum fb =>
              Except.ok (some ⟨idn, nm, price, br, (ra : Rat), fb⟩)
            | _, _, _, _ => Except.ok none
  | _ => Except.error ("AttributeError: no attribute get")

/-- Folds parseEntry over the entries of the products list, skipping
entries whose parse failed with a caught exception and propagating an
escaping AttributeError. -/
def parseEntries : List JValue → Except String (List Product)
  | [] => Except.ok []
  | pd :: rest =>
    match parseEntry pd with
    | Except.error e => Except.error e
    | Except.ok none => parseEntries rest
    | Except.ok (some p) =>
      match parseEntries rest with
      | Except.error e => Except.error e
      | Except.ok ps => Except.ok (p :: ps)

/-- WBAPIAdapter._parse_products (app/wb_adapter.py lines 273-336):
navigates data["data"]["products"] with dict.get defaults and parses each
entry.  The outer except clause catches KeyError, ValueError and TypeError
and re-raises ValueError, so a non-iterable products value becomes a
ValueError; AttributeError from .get on a non-dict escapes unchanged. -/
def parse_products (data : JValue) : Except String (List Product) :=
  match jGetD data ("data") (JValue.jobj []) with
  | Except.error e => Except.error e
  | Except.ok dataSection =>
    match jGetD dataSection ("products") (JValue.jarr []) with
    | Except.error e => Except.error e
    | Except.ok productsData =>
      match pyIter productsData with
      | none => Except.error ("ValueError: Invalid API response format")
      | some items => parseEntries items

/-- An HTTP response as seen by the adapter: status code, optional
Retry-After header, and the body — none when the body fails to parse as
JSON (json.loads raises), some v when it parses to the JSON value v. -/
structure HttpResponse where
  status : Int
  retryAfter : Option String
  body : Option JValue

/-- A sleep performed by the adapter: the rate-limit wait from
_handle_response_error, the exponential backoff between retry attempts,
or the random inter-page jitter (whose uniform value is not modelled). -/
inductive Sleep where
  | rateLimit (secs : Int) : Sleep
  | backoff (d : Rat) : Sleep
  | jitter : Sleep
deriving DecidableEq, Repr

/-- WBAPIAdapter._handle_response_error (app/wb_adapter.py lines 239-271):
returns the sleeps performed and the exception raised, if any.
Status 200 passes; 429 parses the Retry-After header (default "60"),
sleeps that many seconds and raises ClientError — when int() cannot parse
the header the ValueError is raised before any sleep; 5xx, remaining 4xx
and any other non-200 status raise ClientError without sleeping. -/
def handle_response_error (r : HttpResponse) :
    List Sleep × Option String :=
  if r.status = 200 then
    ([], none)
  else if r.status = 429 then
    let retry_after := r.retryAfter.getD ("60")
    match pyInt? retry_after with
    | some wait_time =>
      ([Sleep.rateLimit wait_time],
       some ("Rate limited: " ++ toString r.status))
    | none => ([], some ("ValueError: invalid literal for int"))
  else if 500 ≤ r.status then
    ([], some ("Server error: " ++ toString r.status))
  else if 400 ≤ r.status then
    ([], some ("Client error: " ++ toString r.status))
  else
    ([], some ("Unexpected status: " ++ toString r.status))

/-- WBAPIAdapter._search_page (app/wb_adapter.py lines 169-218): classify
the HTTP status; on 200, a body that does not parse as JSON is logged and
turned into an empty product list, otherwise the body is handed to
_parse_products.  Returns the sleeps performed and the product list or
the exception raised. -/
def search_page (r : HttpResponse) :
    List Sleep × Except String (List Product) :=
  match handle_response_error r with
  | (sleeps, some e) => (sleeps, Except.error e)
  | (sleeps, none) =>
    match r.body with
    | none => (sleeps, Except.ok [])
    | some data => (sleeps, parse_products data)

/-- Page numbers 1, 2, ..., maxPages visited by the page loop
(range(1, max_pages + 1) in the source). -/
def pagesList (maxPages : Nat) : List Nat :=
  (List.range maxPages).map (fun p => p + 1)

/-- A not-found search result with the given pages-scanned count
(app/wb_adapter.py lines 161-167). -/
def notFoundResult (keyword : String) (total : Int) : SearchResult :=
  ⟨keyword, none, none, none, total, none⟩

/-- The page loop of WBAPIAdapter._search_product_pages (app/wb_adapter.py
lines 112-167) over an explicit list of remaining page numbers.  fetch
gives the HTTP response of each page in this attempt.  Pages after the
first are preceded by a random jitter sleep.  An exception from a page is
logged and re-raised, aborting the attempt; a page on which the target
does not occur falls through to the next page; exhausting all pages gives
a not-found result with total_pages_searched = maxPages. -/
def pagesGo (keyword : String) (product_id : Int) (maxPages : Nat)
    (fetch : Nat → HttpResponse) :
    List Nat → List Sleep × Except String SearchResult
  | [] => ([], Except.ok (notFoundResult keyword (maxPages : Int)))
  | p :: rest =>
    let jit : List Sleep := if 1 < p then [Sleep.jitter] else []
    match search_page (fetch p) with
    | (s₁, Except.error e) => (jit ++ s₁, Except.error e)
    | (s₁, Except.ok products) =>
      match products.enum.find? (fun ip => ip.2.id = product_id) with
      | some ip =>
        match calculate_position (p : Int) (ip.1 : Int) 100 with
        | Except.ok pos =>
          (jit ++ s₁,
           Except.ok ⟨keyword, some ip.2, some pos, some (p : Int),
                      (p : Int), none⟩)
        | Except.error e => (jit ++ s₁, Except.error e)
      | none =>
        let (s₂, res) := pagesGo keyword product_id maxPages fetch rest
        (jit ++ s₁ ++ s₂, res)

/-- WBAPIAdapter._search_product_pages: one attempt of the multi-page
scan, pages 1 to maxPages. -/
def search_product_pages (keyword : String) (product_id : Int)
    (maxPages : Nat) (fetch : Nat → HttpResponse) :
    List Sleep × Except String SearchResult :=
  pagesGo keyword product_id maxPages fetch (pagesList maxPages)

/-- The error outcome returned by WBAPIAdapter._search_with_retry after
all attempts failed (app/wb_adapter.py lines 92-99): no product, no
position, no page, zero pages searched, and a description naming the
configured attempt count and the last exception. -/
def errorOutcome (keyword : String) (attempts : Nat) (lastError : String) :
    SearchResult :=
  ⟨keyword, none, none, none, 0,
   some ("API error after " ++ toString attempts ++ " attempts: "
         ++ lastError)⟩

/-- Trace of one call of the retrying search client: the sleeps performed,
the number of attempts executed, and the returned search result. -/
structure RetryTrace where
  sleeps : List Sleep
  attempts : Nat
  result : SearchResult
deriving Repr

/-- The attempt loop of WBAPIAdapter._search_with_retry (app/wb_adapter.py
lines 71-99) over an explicit list of remaining attempt indices, carrying
the string form of last_exception (initially "None", the str of Python
None).  Every exception raised by an attempt is caught; between failed
attempts (while attempt < retryAttempts - 1) the adapter sleeps
backoffFactor ^ attempt seconds.  fetchA gives the HTTP responses seen by
each attempt. -/
def retryGo (keyword : String) (product_id : Int) (maxPages : Nat)
    (retryAttempts : Nat) (backoffFactor : Rat)
    (fetchA : Nat → Nat → HttpResponse) :
    List Nat → String → RetryTrace
  | [], lastError => ⟨[], 0, errorOutcome keyword retryAttempts lastError⟩
  | a :: rest, _lastError =>
    match search_product_pages keyword product_id maxPages (fetchA a) with
    | (s, Except.ok r) => ⟨s, 1, r⟩
    | (s, Except.error e) =>
      let back : List Sleep :=
        if a < retryAttempts - 1 then [Sleep.backoff (backoffFactor ^ a)]
        else []
      let t := retryGo keyword product_id maxPages retryAttempts
        backoffFactor fetchA rest e
      ⟨s ++ back ++ t.sleeps, t.attempts + 1, t.result⟩

/-- WBAPIAdapter._search_with_retry: up to retryAttempts attempts
(range(self.settings.wb_retry_attempts)) of the entire multi-page
search. -/
def search_with_retry (keyword : String) (product_id : Int)
    (maxPages : Nat) (retryAttempts : Nat) (backoffFactor : Rat)
    (fetchA : Nat → Nat → HttpResponse) : RetryTrace :=
  retryGo keyword product_id maxPages retryAttempts backoffFactor fetchA
    (List.range retryAttempts) ("None")

/-- The backoff delays of a sleep trace, in order. -/
def backoffDelays (sleeps : List Sleep) : List Rat :=
  sleeps.filterMap (fun s =>
    match s with
    | Sleep.backoff d => some d
    | _ => none)

/-- The statistics dictionary of RankingServiceImpl (app/services.py
lines 35-44), with its numeric fields as exact values. -/
structure Stats where
  total_keywords_processed : Nat
  successful_searches : Nat
  failed_searches : Nat
  total_execution_time : Rat
  total_position : Int
  average_position : Rat
  best_position : Option Int
  worst_position : Option Int
deriving DecidableEq, Repr

/-- The initial statistics dictionary, as set by the constructor and by
reset_statistics. -/
def initStats : Stats :=
  ⟨0, 0, 0, 0, 0, 0, none, none⟩

/-- The per-result statistics update of
RankingServiceImpl._search_product_by_keywords (app/services.py lines
345-361): a truthy product counts as a successful search and, when the
position is set, adds it to the running position total; otherwise the
search counts as failed. -/
def processResult (st : Stats) (r : SearchResult) : Stats :=
  match r.product with
  | some _ =>
    { st with
      successful_searches := st.successful_searches + 1,
      total_position := st.total_position + (r.position.getD 0) }
  | none =>
    { st with failed_searches := st.failed_searches + 1 }

/-- The result-processing loop over one gathered batch (app/services.py
lines 332-361).  Each entry is either the SearchResult returned by a
task or the exception it raised (asyncio.gather with
return_exceptions=True, order preserving).  For an exception entry the
source constructs SearchResult(keyword="error", product=None, position=0,
page=0, error=str(result)) — without the required total_pages_searched
field, so pydantic raises a ValidationError that propagates out of the
loop before failed_searches is incremented. -/
def processBatchResults (st : Stats) :
    List (Except String SearchResult) →
    Except String (Stats × List SearchResult)
  | [] => Except.ok (st, [])
  | Except.error _ :: _ =>
    Except.error
      ("ValidationError: total_pages_searched field required")
  | Except.ok r :: rest =>
    match processBatchResults (processResult st r) rest with
    | Except.error e => Except.error e
    | Except.ok (st', rs) => Except.ok (st', r :: rs)

/-- Fuelled splitting of a list into consecutive batches of size n
(range(0, total, batch_size) with slicing, app/services.py lines
313-315); fuel at least the list length makes the loop total. -/
def toBatchesAux (n : Nat) : Nat → List α → List (List α)
  | 0, _ => []
  | _, [] => []
  | fuel + 1, x :: xs =>
    (x :: xs.take (n - 1)) :: toBatchesAux n fuel (xs.drop (n - 1))

/-- Consecutive batches of size n of a list. -/
def toBatches (n : Nat) (l : List α) : List (List α) :=
  toBatchesAux n l.length l

/-- The batch loop of RankingServiceImpl._search_product_by_keywords:
launch one batch of per-keyword searches, gather their outcomes in input
order, process them, and continue with the next batch.  search gives the
completion of the per-keyword task: ok its SearchResult or error the
exception it raised. -/
def batchesGo (search : String → Except String SearchResult)
    (st : Stats) :
    List (List String) → Except String (Stats × List SearchResult)
  | [] => Except.ok (st, [])
  | b :: bs =>
    match processBatchResults st (b.map search) with
    | Except.error e => Except.error e
    | Except.ok (st', rs) =>
      match batchesGo search st' bs with
      | Except.error e => Except.error e
      | Except.ok (st'', rs') => Except.ok (st'', rs ++ rs')

/-- RankingServiceImpl._search_product_by_keywords (app/services.py lines
292-391): process the keyword list in batches of the concurrency limit
and record the processed-keyword total at the end. -/
def search_product_by_keywords (batchSize : Nat) (st : Stats)
    (keywords : List String)
    (search : String → Except String SearchResult) :
    Except String (Stats × List SearchResult) :=
  match batchesGo search st (toBatches batchSize keywords) with
  | Except.error e => Except.error e
  | Except.ok (st', rs) =>
    Except.ok ({ st' with total_keywords_processed := keywords.length }, rs)

/-- RankingServiceImpl._calculate_statistics (app/services.py lines
393-409): with at least one positioned result, set the average, best and
worst position over the positioned results. -/
def calculate_statistics (st : Stats) (rs : List SearchResult) : Stats :=
  let positions : List Int := rs.filterMap (fun r => r.position)
  if positions.isEmpty then st
  else
    { st with
      average_position := (positions.sum : Rat) / (positions.length : Rat),
      best_position := positions.min?,
      worst_position := positions.max? }

/-- The fields of RankingResult (app/ports.py lines 31-40) that the
ranking-run orchestration determines. -/
structure RankingResultM where
  product_id : Int
  results : List SearchResult
  total_keywords : Nat
  found_keywords : Nat
deriving DecidableEq, Repr

/-- The ranking-run orchestration of
RankingServiceImpl.rank_product_by_keywords (app/services.py lines
163-192): run the batched search from the current statistics state (the
source never resets the accumulator between runs), compute statistics and
build the RankingResult with found_keywords taken from the
successful_searches counter. -/
def rankRun (batchSize : Nat) (st : Stats) (product_id : Int)
    (keywords : List String)
    (search : String → Except String SearchResult) :
    Except String (RankingResultM × Stats) :=
  match search_product_by_keywords batchSize st keywords search with
  | Except.error e => Except.error e
  | Except.ok (st', rs) =>
    let st'' := calculate_statistics st' rs
    Except.ok (⟨product_id, rs, keywords.length,
               st''.successful_searches⟩, st'')

/-- The outcome invariant claimed by the specification for
SearchOutcome: position and page both set or both unset, both set only
with a product, and exactly one of found / plain not-found / error. -/
def outcomeInvariant (r : SearchResult) : Prop :=
  (r.position.isSome ↔ r.page.isSome) ∧
  (r.position.isSome → r.product.isSome) ∧
  ((r.product.isSome ∧ r.position.isSome ∧ r.page.isSome ∧
      r.error = none) ∨
   (r.product = none ∧ r.position = none ∧ r.page = none ∧
      r.error = none) ∨
   (r.product = none ∧ r.position = none ∧ r.page = none ∧
      r.error.isSome))

instance (r : SearchResult) : Decidable (outcomeInvariant r) := by
  unfold outcomeInvariant
  infer_instance

deriving instance DecidableEq for Except

/-- A response with HTTP status 500 and no parseable body. -/
def resp500 : HttpResponse := ⟨500, none, none⟩

/-- A response with HTTP status 404 and no parseable body. -/
def resp404 : HttpResponse := ⟨404, none, none⟩

/-- A rate-limited response whose Retry-After header does not parse as an
integer. -/
def resp429bad : HttpResponse := ⟨429, some ("soon"), none⟩

/-- A 200 response whose body parses as JSON but is a JSON array, so it
lacks the expected product list. -/
def resp200arr : HttpResponse := ⟨200, none, some (JValue.jarr [])⟩

/-- Claim C1: a per-keyword search task that raises an exception does not
yield an outcome carrying its input keyword — the orchestrator's error
branch builds a SearchResult without the required total_pages_searched
field, so the whole run aborts with a ValidationError instead of
returning a result list aligned with the input keywords. -/
theorem claim_C1_exception_aborts_run :
    search_product_by_keywords 5 initStats ["foo"]
      (fun _ => Except.error ("boom")) =
      Except.error
        ("ValidationError: total_pages_searched field required") := rfl

/-- Claim C3: a non-429 4xx response is retried, not aborted — with three
configured attempts and backoff factor 2, a transport that always returns
404 is attempted three times, with backoff sleeps of 1 and 2 seconds in
between, before the error-outcome is returned. -/
theorem claim_C3_4xx_is_retried :
    search_with_retry "kw" 7 1 3 2 (fun _ _ => resp404) =
      ⟨[Sleep.backoff 1, Sleep.backoff 2], 3,
       ⟨"kw", none, none, none, 0,
        some ("API error after 3 attempts: Client error: 404")⟩⟩ := rfl

/-- Counterexample to claim C4: a 429 response whose Retry-After header is
present but unparseable produces no sleep at all — int() raises before
asyncio.sleep — rather than the claimed fallback wait. -/
theorem claim_C4_counterexample :
    search_page resp429bad =
      ([], Except.error ("ValueError: invalid literal for int")) ∧
    ([] : List Sleep) ≠ [Sleep.rateLimit 60] :=
  ⟨rfl, by decide⟩

/-- Modelled from the spec: the claimed retry delay
base_delay * backoff_factor ^ attempt capped at max_delay.  The only
configured base and cap in the repository are the defaults base_delay 1.0
and max_delay 60.0 of the generic helper retry_with_backoff
(app/utils.py lines 294-332), which the adapter does not use. -/
def specBackoffDelay (base factor maxDelay : Rat) (attempt : Nat) : Rat :=
  min (base * factor ^ attempt) maxDelay

/-- Counterexample to claim C5: with backoff factor 5 and five attempts
against an always-failing transport, the adapter sleeps 125 seconds
before the fifth attempt, while the claimed capped schedule sleeps at
most 60. -/
theorem claim_C5_counterexample :
    backoffDelays (search_with_retry "kw" 7 1 5 5
        (fun _ _ => resp500)).sleeps = [1, 5, 25, 125] ∧
    [specBackoffDelay 1 5 60 0, specBackoffDelay 1 5 60 1,
     specBackoffDelay 1 5 60 2, specBackoffDelay 1 5 60 3] =
      [1, 5, 25, 60] ∧
    (125 : Rat) ≠ 60 := by
  refine ⟨rfl, ?_, by norm_num⟩
  simp [specBackoffDelay, min_def]
  norm_num

/-- A found product used in concrete ranking runs. -/
def prodC7 : Product := ⟨7, "p", 0, "b", 0, 0⟩

/-- A per-keyword search that finds prodC7 at position 1 on page 1. -/
def sFoundC7 : String → Except String SearchResult :=
  fun kw => Except.ok ⟨kw, some prodC7, some 1, some 1, 1, none⟩

/-- Two consecutive ranking runs of the same service instance: the second
run starts from the statistics state left by the first. -/
def secondRunC7 : Except String (RankingResultM × Stats) :=
  match rankRun 1 initStats 7 ["a"] sFoundC7 with
  | Except.ok (_, st1) => rankRun 1 st1 7 ["a"] sFoundC7
  | Except.error e => Except.error e

/-- Counterexample to claim C7: the statistics accumulator is not reset at
the start of a run, so the second of two identical runs reports
found_keywords = 2 although only one of its outcomes has a product. -/
theorem claim_C7_counterexample :
    secondRunC7.map (fun p => p.1.found_keywords) = Except.ok 2 ∧
    secondRunC7.map (fun p =>
      p.1.results.countP (fun r => r.product.isSome)) = Except.ok 1 :=
  ⟨rfl, rfl⟩

/-- Counterexample to claim C9: a 200 response whose body parses as JSON
but is not an object (here a JSON array, which lacks the expected product
list) raises an uncaught AttributeError instead of yielding zero
products, and the page scan aborts on page 1 instead of continuing. -/
theorem claim_C9_counterexample :
    search_page resp200arr =
      ([], Except.error ("AttributeError: no attribute get")) ∧
    search_product_pages "kw" 7 2 (fun _ => resp200arr) =
      ([], Except.error ("AttributeError: no attribute get")) ∧
    (search_product_pages "kw" 7 2 (fun _ => resp200arr)).2 ≠
      Except.ok (notFoundResult "kw" 2) :=
  ⟨rfl, rfl, by decide⟩

theorem backoffDelays_append (a b : List Sleep) :
    backoffDelays (a ++ b) = backoffDelays a ++ backoffDelays b :=
  List.filterMap_append a b _

theorem handle_response_error_no_backoff (r : HttpResponse) :
    backoffDelays (handle_response_error r).1 = [] := by
  unfold handle_response_error
  split
  · rfl
  split
  · rcases h2 : pyInt? (r.retryAfter.getD ("60")) with _ | w <;>
      simp only [h2, backoffDelays, List.filterMap]
  split
  · rfl
  split <;> rfl

theorem search_page_sleeps (r : HttpResponse) :
    (search_page r).1 = (handle_response_error r).1 := by
  unfold search_page
  rcases h : handle_response_error r with ⟨s, e⟩
  rcases e with _ | e
  · rcases r.body with _ | data <;> rfl
  · rfl

theorem pagesGo_no_backoff (kw : String) (pid : Int) (mp : Nat)
    (fetch : Nat → HttpResponse) (pages : List Nat) :
    backoffDelays (pagesGo kw pid mp fetch pages).1 = [] := by
  induction pages with
  | nil => rfl
  | cons p rest ih =>
    have hsp : backoffDelays (search_page (fetch p)).1 = [] := by
      rw [search_page_sleeps]; exact handle_response_error_no_backoff _
    have hjit : ∀ jit : List Sleep,
        jit = (if 1 < p then [Sleep.jitter] else []) →
        backoffDelays jit = [] := by
      intro jit hj; split at hj <;> simp [hj, backoffDelays]
    simp only [pagesGo]
    rcases h : search_page (fetch p) with ⟨s₁, res⟩
    rw [h] at hsp
    rcases res with e | products
    · simp only [backoffDelays_append, hsp, hjit _ rfl, List.append_nil,
        List.nil_append]
    · dsimp only
      rcases hf : products.enum.find? (fun ip => ip.2.id = pid) with _ | ip
      · rw [hf]
        simp only [backoffDelays_append, hsp, hjit _ rfl, ih,
          List.append_nil, List.nil_append]
      · rw [hf]
        dsimp only
        rcases hcp : calculate_position (p : Int) (ip.1 : Int) 100 with
          e | pos <;>
          simp only [backoffDelays_append, hsp, hjit _ rfl,
            List.append_nil, List.nil_append]

theorem pagesList_pos (mp : Nat) : ∀ p ∈ pagesList mp, 1 ≤ p := by
  intro p hp
  obtain ⟨q, _, rfl⟩ := List.mem_map.mp hp
  omega

theorem pagesGo_ok (kw : String) (pid : Int) (mp : Nat)
    (fetch : Nat → HttpResponse) :
    ∀ (pages : List Nat) (s : List Sleep) (r : SearchResult),
    (∀ p ∈ pages, 1 ≤ p) →
    pagesGo kw pid mp fetch pages = (s, Except.ok r) →
    r.keyword = kw ∧ r.error = none ∧ outcomeInvariant r ∧
    (r.total_pages_searched = (mp : Int) ∨ 1 ≤ r.total_pages_searched) := by
  intro pages
  induction pages with
  | nil =>
    intro s r _ h
    simp only [pagesGo] at h
    injection h with h1 h2
    injection h2 with h3
    subst h3
    refine ⟨rfl, rfl, ?_, Or.inl rfl⟩
    simp [outcomeInvariant, notFoundResult]
  | cons p rest ih =>
    intro s r hpos h
    simp only [pagesGo] at h
    rcases hsp : search_page (fetch p) with ⟨s₁, res⟩
    rw [hsp] at h
    rcases res with e | products
    · injection h with h1 h2
      cases h2
    · dsimp only at h
      rcases hf : products.enum.find? (fun ip => ip.2.id = pid) with _ | ip
      · rw [hf] at h
        dsimp only at h
        injection h with h1 h2
        refine ih (pagesGo kw pid mp fetch rest).1 r
          (fun q hq => hpos q (List.mem_cons_of_mem _ hq)) ?_
        rw [← h2]
      · rw [hf] at h
        dsimp only at h
        rcases hcp : calculate_position (p : Int) (ip.1 : Int) 100 with
          e | pos <;> rw [hcp] at h
        · injection h with h1 h2
          cases h2
        · injection h with h1 h2
          injection h2 with h3
          subst h3
          have hp1 : 1 ≤ p := hpos p (List.mem_cons_self p rest)
          refine ⟨rfl, rfl, by simp [outcomeInvariant], Or.inr ?_⟩
          show (1 : Int) ≤ (p : Int)
          exact_mod_cast hp1

theorem pagesGo_notfound (kw : String) (pid : Int) (mp : Nat)
    (fetch : Nat → HttpResponse)
    (h : ∀ p, ∃ s prods, search_page (fetch p) = (s, Except.ok prods) ∧
      ∀ pr ∈ prods, pr.id ≠ pid) :
    ∀ pages, (pagesGo kw pid mp fetch pages).2 =
      Except.ok (notFoundResult kw (mp : Int)) := by
  intro pages
  induction pages with
  | nil => rfl
  | cons p rest ih =>
    obtain ⟨s, prods, hsp, hids⟩ := h p
    have hfind : prods.enum.find? (fun ip => ip.2.id = pid) = none := by
      rw [List.find?_eq_none]
      intro ip hip
      have hmem : ip.2 ∈ prods := by
        have := List.mem_map_of_mem Prod.snd hip
        rwa [List.enum_map_snd] at this
      simpa using hids ip.2 hmem
    simp only [pagesGo]
    rw [hsp]
    dsimp only
    rw [hfind]
    dsimp only
    exact ih

theorem retryGo_cases (kw : String) (pid : Int) (mp N : Nat)
    (factor : Rat) (fetchA : Nat → Nat → HttpResponse) :
    ∀ (attempts : List Nat) (last : String),
    (∃ lastE, (retryGo kw pid mp N factor fetchA attempts last).result =
      errorOutcome kw N lastE) ∨
    (∃ a ∈ attempts, ∃ s,
      search_product_pages kw pid mp (fetchA a) =
        (s, Except.ok (retryGo kw pid mp N factor fetchA
          attempts last).result)) := by
  intro attempts
  induction attempts with
  | nil => intro last; exact Or.inl ⟨last, rfl⟩
  | cons a rest ih =>
    intro last
    simp only [retryGo]
    rcases hsp : search_product_pages kw pid mp (fetchA a) with ⟨s, res⟩
    rcases res with e | r
    · dsimp only
      rcases ih e with ⟨lastE, hE⟩ | ⟨b, hb, s', hb'⟩
      · exact Or.inl ⟨lastE, hE⟩
      · exact Or.inr ⟨b, List.mem_cons_of_mem _ hb, s', hb'⟩
    · exact Or.inr ⟨a, List.mem_cons_self a rest, s, by rw [hsp]⟩

theorem retryGo_fail_trace (kw : String) (pid : Int) (mp N : Nat)
    (factor : Rat) (fetchA : Nat → Nat → HttpResponse) :
    ∀ (attempts : List Nat) (last : String),
    (∀ a ∈ attempts, ∃ e,
      (search_product_pages kw pid mp (fetchA a)).2 = Except.error e) →
    (retryGo kw pid mp N factor fetchA attempts last).attempts =
      attempts.length ∧
    backoffDelays (retryGo kw pid mp N factor fetchA
        attempts last).sleeps =
      (attempts.filter (fun a => a < N - 1)).map
        (fun a => factor ^ a) := by
  intro attempts
  induction attempts with
  | nil => intro last _; exact ⟨rfl, rfl⟩
  | cons a rest ih =>
    intro last hfail
    simp only [retryGo]
    rcases hsp : search_product_pages kw pid mp (fetchA a) with ⟨s, res⟩
    rcases res with e' | r
    · dsimp only
      obtain ⟨ihl, iht⟩ := ih e'
        (fun b hb => hfail b (List.mem_cons_of_mem _ hb))
      have hs : backoffDelays s = [] := by
        have := pagesGo_no_backoff kw pid mp (fetchA a) (pagesList mp)
        rw [show pagesGo kw pid mp (fetchA a) (pagesList mp) =
              search_product_pages kw pid mp (fetchA a) from rfl,
            hsp] at this
        exact this
      constructor
      · simp [ihl]
      · rw [backoffDelays_append, backoffDelays_append, hs, iht,
          List.filter_cons]
        split <;> rename_i hc <;> simp [hc, backoffDelays]
    · obtain ⟨e, he⟩ := hfail a (List.mem_cons_self a rest)
      rw [hsp] at he
      cases he

theorem retryGo_fail_result (kw : String) (pid : Int) (mp N : Nat)
    (factor : Rat) (fetchA : Nat → Nat → HttpResponse) (e₀ : String) :
    ∀ (attempts : List Nat) (last : String),
    (∀ a ∈ attempts,
      (search_product_pages kw pid mp (fetchA a)).2 = Except.error e₀) →
    (retryGo kw pid mp N factor fetchA attempts last).result =
      errorOutcome kw N (if attempts.isEmpty then last else e₀) := by
  intro attempts
  induction attempts with
  | nil => intro last _; rfl
  | cons a rest ih =>
    intro last hfail
    have he := hfail a (List.mem_cons_self a rest)
    simp only [retryGo]
    rcases hsp : search_product_pages kw pid mp (fetchA a) with ⟨s, res⟩
    rw [hsp] at he
    rcases res with e' | r
    · dsimp only
      injection he with he'
      rw [he']
      rw [ih e₀ (fun b hb => hfail b (List.mem_cons_of_mem _ hb))]
      rcases rest with _ | ⟨b, rest'⟩ <;> simp
    · cases he

theorem range_filter_lt (N : Nat) :
    (List.range N).filter (fun a => a < N - 1) = List.range (N - 1) := by
  rcases N with _ | m
  · rfl
  · have h1 : List.range (m + 1) = List.range m ++ [m] := List.range_succ m
    rw [h1, List.filter_append]
    have h2 : (List.range m).filter (fun a => a < m + 1 - 1) =
        List.range m := by
      rw [List.filter_eq_self]
      intro a ha
      have ham := List.mem_range.mp ha
      simp only [decide_eq_true_eq]
      omega
    have h3 : ([m].filter (fun a => a < m + 1 - 1)) = [] := by
      simp
    rw [h2, h3, List.append_nil]
    rfl

theorem processResult_successful (st : Stats) (r : SearchResult) :
    (processResult st r).successful_searches =
      st.successful_searches + (if r.product.isSome then 1 else 0) := by
  unfold processResult
  rcases r.product with _ | p <;> simp

theorem processBatchResults_ok (st : Stats) :
    ∀ (l : List (Except String SearchResult)) (st' : Stats)
      (rs : List SearchResult),
    processBatchResults st l = Except.ok (st', rs) →
    rs.length = l.length ∧
    st'.successful_searches = st.successful_searches +
      rs.countP (fun r => r.product.isSome) ∧
    ∀ r ∈ rs, Except.ok r ∈ l := by
  intro l
  induction l generalizing st with
  | nil =>
    intro st' rs h
    simp only [processBatchResults] at h
    injection h with h1
    injection h1 with h2 h3
    subst h2; subst h3
    exact ⟨rfl, by simp, by simp⟩
  | cons x rest ih =>
    intro st' rs h
    rcases x with e | r
    · simp only [processBatchResults] at h
      cases h
    · simp only [processBatchResults] at h
      rcases hrec : processBatchResults (processResult st r) rest with
        e' | p
      · rw [hrec] at h; cases h
      · rw [hrec] at h
        rcases p with ⟨st2, rs2⟩
        dsimp only at h
        injection h with h1
        injection h1 with h2 h3
        subst h2; subst h3
        obtain ⟨hl, hsucc, hmem⟩ := ih (processResult st r) st2 rs2 hrec
        refine ⟨by simp [hl], ?_, ?_⟩
        · rw [hsucc, processResult_successful, List.countP_cons]
          rcases hp : r.product with _ | q <;> (simp [hp]; try omega)
        · intro r' hr'
          rcases List.mem_cons.mp hr' with h | h
          · subst h; exact List.mem_cons_self _ _
          · exact List.mem_cons_of_mem _ (hmem r' h)

theorem processBatchResults_allok (f : String → SearchResult) :
    ∀ (b : List String) (st : Stats),
    ∃ st', processBatchResults st
      (b.map (fun kw => Except.ok (f kw))) =
        Except.ok (st', b.map f) := by
  intro b
  induction b with
  | nil => intro st; exact ⟨st, rfl⟩
  | cons kw rest ih =>
    intro st
    obtain ⟨st', hst'⟩ := ih (processResult st (f kw))
    refine ⟨st', ?_⟩
    simp only [List.map_cons, processBatchResults, hst']

theorem toBatchesAux_join (n : Nat) :
    ∀ (fuel : Nat) (l : List α), l.length ≤ fuel →
    (toBatchesAux n fuel l).flatten = l := by
  intro fuel
  induction fuel with
  | zero =>
    intro l hl
    rcases l with _ | ⟨x, xs⟩
    · rfl
    · simp at hl
  | succ fuel ih =>
    intro l hl
    rcases l with _ | ⟨x, xs⟩
    · rfl
    · simp only [toBatchesAux, List.flatten_cons]
      rw [ih (xs.drop (n - 1)) (by simp at hl ⊢; omega)]
      simp [List.take_append_drop]

theorem toBatches_join (n : Nat) (l : List α) :
    (toBatches n l).flatten = l :=
  toBatchesAux_join n l.length l (Nat.le_refl _)

theorem batchesGo_ok (search : String → Except String SearchResult) :
    ∀ (bs : List (List String)) (st st' : Stats)
      (rs : List SearchResult),
    batchesGo search st bs = Except.ok (st', rs) →
    rs.length = bs.flatten.length ∧
    st'.successful_searches = st.successful_searches +
      rs.countP (fun r => r.product.isSome) ∧
    ∀ r ∈ rs, ∃ kw ∈ bs.flatten, search kw = Except.ok r := by
  intro bs
  induction bs with
  | nil =>
    intro st st' rs h
    simp only [batchesGo] at h
    injection h with h1
    injection h1 with h2 h3
    subst h2; subst h3
    exact ⟨rfl, by simp, by simp⟩
  | cons b rest ih =>
    intro st st' rs h
    simp only [batchesGo] at h
    rcases hpb : processBatchResults st (b.map search) with e | p
    · rw [hpb] at h; cases h
    · rw [hpb] at h
      rcases p with ⟨st1, rs1⟩
      dsimp only at h
      rcases hbg : batchesGo search st1 rest with e | p2
      · rw [hbg] at h; cases h
      · rw [hbg] at h
        rcases p2 with ⟨st2, rs2⟩
        dsimp only at h
        injection h with h1
        injection h1 with h2 h3
        subst h2; subst h3
        obtain ⟨hl1, hs1, hm1⟩ := processBatchResults_ok st _ st1 rs1 hpb
        obtain ⟨hl2, hs2, hm2⟩ := ih st1 st2 rs2 hbg
        refine ⟨?_, ?_, ?_⟩
        · simp [hl1, hl2]
        · rw [hs2, hs1, List.countP_append]; omega
        · intro r hr
          rcases List.mem_append.mp hr with h | h
          · obtain ⟨x, hx, hxr⟩ := List.mem_map.mp (hm1 r h)
            exact ⟨x, by simp [hx], hxr⟩
          · obtain ⟨kw, hkw, hkwr⟩ := hm2 r h
            exact ⟨kw, by simp [hkw], hkwr⟩

theorem batchesGo_allok (f : String → SearchResult) :
    ∀ (bs : List (List String)) (st : Stats),
    ∃ st', batchesGo (fun kw => Except.ok (f kw)) st bs =
      Except.ok (st', bs.flatten.map f) := by
  intro bs
  induction bs with
  | nil => intro st; exact ⟨st, rfl⟩
  | cons b rest ih =>
    intro st
    obtain ⟨st1, hst1⟩ := processBatchResults_allok f b st
    obtain ⟨st2, hst2⟩ := ih st1
    refine ⟨st2, ?_⟩
    simp only [batchesGo, hst1, hst2, List.flatten_cons, List.map_append]

theorem search_product_by_keywords_ok (batchSize : Nat) (st : Stats)
    (keywords : List String)
    (search : String → Except String SearchResult) (st' : Stats)
    (rs : List SearchResult)
    (h : search_product_by_keywords batchSize st keywords search =
      Except.ok (st', rs)) :
    rs.length = keywords.length ∧
    st'.successful_searches = st.successful_searches +
      rs.countP (fun r => r.product.isSome) ∧
    ∀ r ∈ rs, ∃ kw ∈ keywords, search kw = Except.ok r := by
  unfold search_product_by_keywords at h
  rcases hbg : batchesGo search st (toBatches batchSize keywords) with
    e | p
  · rw [hbg] at h; cases h
  · rw [hbg] at h
    rcases p with ⟨st1, rs1⟩
    dsimp only at h
    injection h with h1
    injection h1 with h2 h3
    subst h3
    obtain ⟨hl, hs, hm⟩ :=
      batchesGo_ok search (toBatches batchSize keywords) st st1 rs1 hbg
    rw [toBatches_join] at hl hm
    refine ⟨hl, ?_, hm⟩
    rw [← h2, hs]

theorem search_product_by_keywords_allok (batchSize : Nat) (st : Stats)
    (keywords : List String) (f : String → SearchResult) :
    ∃ st', search_product_by_keywords batchSize st keywords
      (fun kw => Except.ok (f kw)) =
        Except.ok (st', keywords.map f) := by
  obtain ⟨st1, hst1⟩ :=
    batchesGo_allok f (toBatches batchSize keywords) st
  refine ⟨{ st1 with total_keywords_processed := keywords.length }, ?_⟩
  unfold search_product_by_keywords
  rw [hst1]
  dsimp only
  rw [toBatches_join]

theorem calculate_statistics_successful (st : Stats)
    (rs : List SearchResult) :
    (calculate_statistics st rs).successful_searches =
      st.successful_searches := by
  simp only [calculate_statistics]
  split <;> rfl

theorem handle_response_error_429 (ra : Option String) (b : Option JValue) :
    handle_response_error ⟨429, ra, b⟩ =
      match pyInt? (ra.getD ("60")) with
      | some w => ([Sleep.rateLimit w], some ("Rate limited: 429"))
      | none => ([], some ("ValueError: invalid literal for int")) := rfl

theorem search_page_429 (ra : Option String) (b : Option JValue) :
    search_page ⟨429, ra, b⟩ =
      match pyInt? (ra.getD ("60")) with
      | some w =>
        ([Sleep.rateLimit w], Except.error ("Rate limited: 429"))
      | none =>
        ([], Except.error ("ValueError: invalid literal for int")) := by
  rcases hw : pyInt? (ra.getD ("60")) with _ | w <;>
    (unfold search_page; rw [handle_response_error_429, hw])

/-- Claim C4 as amended: on HTTP 429 the adapter sleeps the Retry-After
value when the header is present and parses as an integer, 60 seconds
when it is absent — but when the header is present and unparseable, int()
raises ValueError before any sleep.  In every case the 429 failure is
raised into the outer retry loop, consuming exactly one attempt, and is
never surfaced to the caller of search: after exhausting attempts it is
reported only inside the error-outcome description. -/
theorem claim_C4_rate_limit_handling :
    (∀ r : HttpResponse, r.status = 429 → r.retryAfter = none →
      search_page r = ([Sleep.rateLimit 60],
        Except.error ("Rate limited: 429"))) ∧
    (∀ (r : HttpResponse) (s : String) (w : Int), r.status = 429 →
      r.retryAfter = some s → pyInt? s = some w →
      search_page r = ([Sleep.rateLimit w],
        Except.error ("Rate limited: 429"))) ∧
    (∀ (r : HttpResponse) (s : String), r.status = 429 →
      r.retryAfter = some s → pyInt? s = none →
      search_page r =
        ([], Except.error ("ValueError: invalid literal for int"))) ∧
    (∀ (kw : String) (pid : Int) (mp N : Nat) (factor : Rat)
      (fetchA : Nat → Nat → HttpResponse) (e : String)
      (s1 : List Sleep) (r1 : SearchResult), 2 ≤ N →
      (search_product_pages kw pid mp (fetchA 0)).2 = Except.error e →
      search_product_pages kw pid mp (fetchA 1) = (s1, Except.ok r1) →
      (search_with_retry kw pid mp N factor fetchA).attempts = 2 ∧
      (search_with_retry kw pid mp N factor fetchA).result = r1) ∧
    (∀ (kw : String) (pid : Int) (mp N : Nat) (factor : Rat)
      (fetchA : Nat → Nat → HttpResponse), 1 ≤ N →
      (∀ a, (search_product_pages kw pid mp (fetchA a)).2 =
        Except.error ("Rate limited: 429")) →
      (search_with_retry kw pid mp N factor fetchA).result =
        errorOutcome kw N ("Rate limited: 429")) := by
  refine ⟨?_, ?_, ?_, ?_, ?_⟩
  · intro r h1 h2
    obtain ⟨st, ra, b⟩ := r
    dsimp only at h1 h2
    subst h1; subst h2
    rfl
  · intro r s w h1 h2 hw
    obtain ⟨st, ra, b⟩ := r
    dsimp only at h1 h2
    subst h1; subst h2
    rw [search_page_429]
    simp only [Option.getD_some, hw]
  · intro r s h1 h2 hw
    obtain ⟨st, ra, b⟩ := r
    dsimp only at h1 h2
    subst h1; subst h2
    rw [search_page_429]
    simp only [Option.getD_some, hw]
  · intro kw pid mp N factor fetchA e s1 r1 hN h0 h1
    obtain ⟨m, rfl⟩ : ∃ m, N = m + 2 := ⟨N - 2, by omega⟩
    unfold search_with_retry
    rw [List.range_succ_eq_map, List.range_succ_eq_map, List.map_cons]
    simp only [retryGo]
    rcases hsp0 : search_product_pages kw pid mp (fetchA 0) with ⟨s0, res0⟩
    rw [hsp0] at h0
    dsimp only at h0
    subst h0
    dsimp only
    rw [h1]
    dsimp only
    exact ⟨rfl, rfl⟩
  · intro kw pid mp N factor fetchA hN hfail
    unfold search_with_retry
    rw [retryGo_fail_result kw pid mp N factor fetchA
      ("Rate limited: 429") (List.range N) ("None")
      (fun a _ => hfail a)]
    have hne : (List.range N).isEmpty = false := by
      rw [List.isEmpty_eq_false_iff_exists_mem]
      exact ⟨0, List.mem_range.mpr (by omega)⟩
    rw [hne]
    simp

/-- A transport whose first attempt is rate limited with Retry-After 2
and whose second attempt returns an empty 200 page. -/
def fetchC4 : Nat → Nat → HttpResponse :=
  fun a _ => if a = 0 then ⟨429, some ("2"), none⟩ else ⟨200, none, none⟩

/-- Witness for claim C4: concrete 429 responses with an absent, a
parseable and an unparseable Retry-After header, and a concrete
rate-limited first attempt consuming exactly one retry attempt. -/
theorem claim_C4_witness :
    search_page ⟨429, none, none⟩ =
      ([Sleep.rateLimit 60], Except.error ("Rate limited: 429")) ∧
    search_page ⟨429, some ("2"), none⟩ =
      ([Sleep.rateLimit 2], Except.error ("Rate limited: 429")) ∧
    search_page resp429bad =
      ([], Except.error ("ValueError: invalid literal for int")) ∧
    (search_with_retry "kw" 7 1 2 2 fetchC4).attempts = 2 ∧
    (search_with_retry "kw" 7 1 2 2 fetchC4).result =
      notFoundResult "kw" 1 ∧
    (search_with_retry "kw" 7 1 1 2
        (fun _ _ => ⟨429, some ("2"), none⟩)).result =
      errorOutcome "kw" 1 ("Rate limited: 429") :=
  ⟨claim_C4_rate_limit_handling.1 ⟨429, none, none⟩ rfl rfl,
   claim_C4_rate_limit_handling.2.1 ⟨429, some ("2"), none⟩ ("2") 2
     rfl rfl rfl,
   claim_C4_rate_limit_handling.2.2.1 resp429bad ("soon") rfl rfl rfl,
   (claim_C4_rate_limit_handling.2.2.2.1 "kw" 7 1 2 2 fetchC4
     ("Rate limited: 429") [] (notFoundResult "kw" 1)
     (by decide) rfl rfl).1,
   (claim_C4_rate_limit_handling.2.2.2.1 "kw" 7 1 2 2 fetchC4
     ("Rate limited: 429") [] (notFoundResult "kw" 1)
     (by decide) rfl rfl).2,
   claim_C4_rate_limit_handling.2.2.2.2 "kw" 7 1 1 2
     (fun _ _ => ⟨429, some ("2"), none⟩) (by decide) (fun _ => rfl)⟩

/-- Claim C5 as amended: the delay slept before attempt attempt+1 equals
backoff_factor ^ attempt, with no base-delay multiplier and no maximum
cap, and the retry policy re-runs the entire per-keyword multi-page
search, executing all N configured attempts when every attempt fails
retryably. -/
theorem claim_C5_backoff_schedule :
    ∀ (kw : String) (pid : Int) (mp N : Nat) (factor : Rat)
      (fetchA : Nat → Nat → HttpResponse),
    (∀ a, ∃ e, (search_product_pages kw pid mp (fetchA a)).2 =
      Except.error e) →
    backoffDelays (search_with_retry kw pid mp N factor fetchA).sleeps =
      (List.range (N - 1)).map (fun a => factor ^ a) ∧
    (search_with_retry kw pid mp N factor fetchA).attempts = N := by
  intro kw pid mp N factor fetchA hfail
  obtain ⟨ha, hb⟩ := retryGo_fail_trace kw pid mp N factor fetchA
    (List.range N) ("None") (fun a _ => hfail a)
  unfold search_with_retry
  constructor
  · rw [hb, range_filter_lt]
  · rw [ha, List.length_range]

/-- Witness for claim C5 at an always-500 transport with backoff factor 5
and five attempts. -/
theorem claim_C5_witness :
    backoffDelays (search_with_retry "kw" 7 1 5 5
        (fun _ _ => resp500)).sleeps =
      (List.range 4).map (fun a => (5 : Rat) ^ a) ∧
    (search_with_retry "kw" 7 1 5 5 (fun _ _ => resp500)).attempts = 5 :=
  claim_C5_backoff_schedule "kw" 7 1 5 5 (fun _ _ => resp500)
    (fun _ => ⟨"Server error: 500", rfl⟩)

/-- Claim C6: a transport that always returns HTTP 500 makes every
attempt fail, the adapter returns an error-outcome whose description
names the configured attempt count and the last error, and the
orchestrator still completes with one outcome per keyword — no exception
escapes and the run is not aborted. -/
theorem claim_C6_retry_exhaustion :
    ∀ (kw : String) (pid : Int) (mp N : Nat) (factor : Rat)
      (fetchA : Nat → Nat → HttpResponse) (batchSize : Nat) (st : Stats)
      (keywords : List String),
    1 ≤ N → 1 ≤ mp → (∀ a p, fetchA a p = resp500) →
    (search_with_retry kw pid mp N factor fetchA).result.error =
      some ("API error after " ++ toString N ++
        " attempts: Server error: 500") ∧
    ((search_product_by_keywords batchSize st keywords (fun _ =>
        Except.ok (search_with_retry kw pid mp N factor fetchA).result)).map
      (fun p => p.2.length)) = Except.ok keywords.length := by
  intro kw pid mp N factor fetchA batchSize st keywords hN hmp hfetch
  have hattempt : ∀ a, (search_product_pages kw pid mp (fetchA a)).2 =
      Except.error ("Server error: 500") := by
    intro a
    obtain ⟨m, rfl⟩ : ∃ m, mp = m + 1 := ⟨mp - 1, by omega⟩
    unfold search_product_pages pagesList
    rw [List.range_succ_eq_map, List.map_cons]
    simp only [pagesGo, Nat.zero_add]
    rw [hfetch a 1]
    rfl
  constructor
  · unfold search_with_retry
    rw [retryGo_fail_result kw pid mp N factor fetchA
      ("Server error: 500") (List.range N) ("None")
      (fun a _ => hattempt a)]
    have hne : (List.range N).isEmpty = false := by
      rw [List.isEmpty_eq_false_iff_exists_mem]
      exact ⟨0, List.mem_range.mpr (by omega)⟩
    rw [hne]
    show some ("API error after " ++ toString N ++ " attempts: "
      ++ "Server error: 500") = _
    rw [String.append_assoc]
    rfl
  · obtain ⟨st', hok⟩ := search_product_by_keywords_allok batchSize st
      keywords (fun _ => (search_with_retry kw pid mp N factor fetchA).result)
    rw [hok]
    simp [Except.map]

/-- Witness for claim C6 at two attempts, one page, three keywords and an
always-500 transport. -/
theorem claim_C6_witness :
    (search_with_retry "kw" 7 1 2 2 (fun _ _ => resp500)).result.error =
      some ("API error after 2 attempts: Server error: 500") ∧
    ((search_product_by_keywords 2 initStats ["a", "b", "c"] (fun _ =>
        Except.ok (search_with_retry "kw" 7 1 2 2
          (fun _ _ => resp500)).result)).map
      (fun p => p.2.length)) = Except.ok 3 :=
  claim_C6_retry_exhaustion "kw" 7 1 2 2 (fun _ _ => resp500) 2
    initStats ["a", "b", "c"] (by decide) (by decide) (fun _ _ => rfl)

/-- Claim C7 as amended: found_keywords equals the successful_searches
counter as accumulated since the service was created or its statistics
explicitly reset — the source does not reset the accumulator at the
start of each run.  For a run starting from a zero counter it equals the
number of outcomes of that run whose product is present. -/
theorem claim_C7_found_count :
    ∀ (batchSize : Nat) (st : Stats) (pid : Int)
      (keywords : List String)
      (search : String → Except String SearchResult)
      (res : RankingResultM) (st' : Stats),
    st.successful_searches = 0 →
    rankRun batchSize st pid keywords search = Except.ok (res, st') →
    res.found_keywords =
      res.results.countP (fun r => r.product.isSome) := by
  intro batchSize st pid keywords search res st' hzero h
  unfold rankRun at h
  rcases hsp : search_product_by_keywords batchSize st keywords search
    with e | p
  · rw [hsp] at h; cases h
  · rw [hsp] at h
    rcases p with ⟨st1, rs⟩
    dsimp only at h
    injection h with h1
    injection h1 with h2 h3
    subst h2
    obtain ⟨-, hs, -⟩ := search_product_by_keywords_ok batchSize st
      keywords search st1 rs hsp
    dsimp only
    rw [calculate_statistics_successful, hs, hzero, Nat.zero_add]

/-- Witness for claim C7: a fresh run over one keyword that finds the
product has found_keywords equal to its one found outcome. -/
theorem claim_C7_witness :
    (⟨7, [⟨"a", some prodC7, some 1, some 1, 1, none⟩], 1, 1⟩ :
        RankingResultM).found_keywords =
      (⟨7, [⟨"a", some prodC7, some 1, some 1, 1, none⟩], 1, 1⟩ :
        RankingResultM).results.countP (fun r => r.product.isSome) :=
  claim_C7_found_count 1 initStats 7 ["a"] sFoundC7 _ _ rfl rfl

/-- Claim C8: every SearchOutcome the system produces — any result of the
retrying search client, and any outcome collected into a completed
orchestration whose per-keyword client results satisfy the invariant —
has position and page both set or both unset, both set only with a
product, and exactly one of found / plain not-found / error. -/
theorem claim_C8_outcome_invariant :
    (∀ (kw : String) (pid : Int) (mp N : Nat) (factor : Rat)
      (fetchA : Nat → Nat → HttpResponse),
      outcomeInvariant
        (search_with_retry kw pid mp N factor fetchA).result) ∧
    (∀ (batchSize : Nat) (st : Stats) (keywords : List String)
      (search : String → Except String SearchResult) (st' : Stats)
      (rs : List SearchResult),
      (∀ kw r, search kw = Except.ok r → outcomeInvariant r) →
      search_product_by_keywords batchSize st keywords search =
        Except.ok (st', rs) →
      ∀ r ∈ rs, outcomeInvariant r) := by
  constructor
  · intro kw pid mp N factor fetchA
    rcases retryGo_cases kw pid mp N factor fetchA (List.range N)
      ("None") with ⟨lastE, hE⟩ | ⟨a, ha, s, hs⟩
    · unfold search_with_retry
      rw [hE]
      simp [outcomeInvariant, errorOutcome]
    · have h := pagesGo_ok kw pid mp (fetchA a) (pagesList mp) s _
        (pagesList_pos mp) hs
      exact h.2.2.1
  · intro batchSize st keywords search st' rs hinv hok r hr
    obtain ⟨-, -, hmem⟩ := search_product_by_keywords_ok batchSize st
      keywords search st' rs hok
    obtain ⟨kw, -, hkw⟩ := hmem r hr
    exact hinv kw r hkw

/-- Witness for claim C8: a concrete retry-exhausted outcome and a
concrete found outcome passing through the orchestrator both satisfy the
invariant. -/
theorem claim_C8_witness :
    outcomeInvariant (search_with_retry "kw" 7 1 2 2
      (fun _ _ => resp500)).result ∧
    outcomeInvariant
      (⟨"a", some prodC7, some 1, some 1, 1, none⟩ : SearchResult) :=
  ⟨claim_C8_outcome_invariant.1 "kw" 7 1 2 2 (fun _ _ => resp500),
   claim_C8_outcome_invariant.2 1 initStats ["a"] sFoundC7
     ⟨1, 1, 0, 0, 1, 0, none, none⟩
     [⟨"a", some prodC7, some 1, some 1, 1, none⟩]
     (fun kw r h => by
       injection h with h'
       subst h'
       simp [outcomeInvariant])
     rfl
     ⟨"a", some prodC7, some 1, some 1, 1, none⟩
     (List.mem_singleton.mpr rfl)⟩

/-- Claim C9 as amended: a 200 response whose body is not JSON, or whose
body is a JSON object in which the data object or the products list is
missing, yields zero products for the page, and a scan whose pages all
yield zero products runs through every page to a not-found outcome; a
body that is JSON but not an object instead raises and aborts the
attempt (the C9 counterexample). -/
theorem claim_C9_zero_products :
    (∀ r : HttpResponse, r.status = 200 → r.body = none →
      search_page r = ([], Except.ok [])) ∧
    (∀ (r : HttpResponse) (fields : List (String × JValue)),
      r.status = 200 → r.body = some (JValue.jobj fields) →
      jLookup fields ("data") = none →
      search_page r = ([], Except.ok [])) ∧
    (∀ (r : HttpResponse) (fields fs2 : List (String × JValue)),
      r.status = 200 → r.body = some (JValue.jobj fields) →
      jLookup fields ("data") = some (JValue.jobj fs2) →
      jLookup fs2 ("products") = none →
      search_page r = ([], Except.ok [])) ∧
    (∀ (kw : String) (pid : Int) (mp : Nat)
      (fetch : Nat → HttpResponse),
      (∀ p, search_page (fetch p) = ([], Except.ok [])) →
      (search_product_pages kw pid mp fetch).2 =
        Except.ok (notFoundResult kw (mp : Int))) := by
  refine ⟨?_, ?_, ?_, ?_⟩
  · intro r h1 h2
    obtain ⟨st, ra, b⟩ := r
    dsimp only at h1 h2
    subst h1; subst h2
    rfl
  · intro r fields h1 h2 hlk
    obtain ⟨st, ra, b⟩ := r
    dsimp only at h1 h2
    subst h1; subst h2
    have hp : parse_products (JValue.jobj fields) = Except.ok [] := by
      unfold parse_products
      simp only [jGetD, hlk, Option.getD_none]
      rfl
    show ([], parse_products (JValue.jobj fields)) = ([], Except.ok [])
    rw [hp]
  · intro r fields fs2 h1 h2 hlk hlk2
    obtain ⟨st, ra, b⟩ := r
    dsimp only at h1 h2
    subst h1; subst h2
    have hp : parse_products (JValue.jobj fields) = Except.ok [] := by
      unfold parse_products
      simp only [jGetD, hlk, Option.getD_some, hlk2, Option.getD_none]
      rfl
    show ([], parse_products (JValue.jobj fields)) = ([], Except.ok [])
    rw [hp]
  · intro kw pid mp fetch hp
    exact pagesGo_notfound kw pid mp fetch
      (fun p => ⟨[], [], hp p, by simp⟩) (pagesList mp)

/-- Witness for claim C9: concrete 200 responses with a non-JSON body,
an object body without a data object, and a data object without a
products list, all yield zero products, and a three-page scan over empty
pages completes with a not-found outcome. -/
theorem claim_C9_witness :
    search_page ⟨200, none, none⟩ = ([], Except.ok []) ∧
    search_page ⟨200, none, some (JValue.jobj [("x", JValue.jnum 1)])⟩ =
      ([], Except.ok []) ∧
    search_page ⟨200, none,
        some (JValue.jobj
          [("data", JValue.jobj [("y", JValue.jnum 2)])])⟩ =
      ([], Except.ok []) ∧
    (search_product_pages "kw" 7 3 (fun _ => ⟨200, none, none⟩)).2 =
      Except.ok (notFoundResult "kw" 3) :=
  ⟨claim_C9_zero_products.1 ⟨200, none, none⟩ rfl rfl,
   claim_C9_zero_products.2.1 ⟨200, none,
     some (JValue.jobj [("x", JValue.jnum 1)])⟩
     [("x", JValue.jnum 1)] rfl rfl rfl,
   claim_C9_zero_products.2.2.1 ⟨200, none,
     some (JValue.jobj [("data", JValue.jobj [("y", JValue.jnum 2)])])⟩
     [("data", JValue.jobj [("y", JValue.jnum 2)])]
     [("y", JValue.jnum 2)] rfl rfl rfl rfl,
   claim_C9_zero_products.2.2.2 "kw" 7 3 (fun _ => ⟨200, none, none⟩)
     (fun _ => rfl)⟩

/-- Claim C10: an error-outcome from retry exhaustion always reports zero
pages searched, whatever pages the failed attempts actually scanned; a
not-found outcome reports max_pages; and for max_pages at least 1 a set
error together with a zero pages-scanned count characterises retry
exhaustion among the client's outcomes. -/
theorem claim_C10_pages_scanned_signature :
    ∀ (kw : String) (pid : Int) (mp N : Nat) (factor : Rat)
      (fetchA : Nat → Nat → HttpResponse) (fetch : Nat → HttpResponse),
    ((∀ a, ∃ e, (search_product_pages kw pid mp (fetchA a)).2 =
        Except.error e) →
      (search_with_retry kw pid mp N factor
        fetchA).result.total_pages_searched = 0 ∧
      (search_with_retry kw pid mp N factor
        fetchA).result.error.isSome = true) ∧
    ((∀ p, ∃ s prods, search_page (fetch p) = (s, Except.ok prods) ∧
        ∀ pr ∈ prods, pr.id ≠ pid) →
      (search_product_pages kw pid mp fetch).2 =
        Except.ok (notFoundResult kw (mp : Int))) ∧
    (1 ≤ mp →
      ((search_with_retry kw pid mp N factor
          fetchA).result.error.isSome = true ↔
        (search_with_retry kw pid mp N factor
          fetchA).result.total_pages_searched = 0)) := by
  intro kw pid mp N factor fetchA fetch
  refine ⟨?_, ?_, ?_⟩
  · intro hfail
    rcases retryGo_cases kw pid mp N factor fetchA (List.range N)
      ("None") with ⟨lastE, hE⟩ | ⟨a, ha, s, hs⟩
    · unfold search_with_retry
      rw [hE]
      exact ⟨rfl, rfl⟩
    · obtain ⟨e, he⟩ := hfail a
      rw [hs] at he
      cases he
  · intro hnf
    exact pagesGo_notfound kw pid mp fetch hnf (pagesList mp)
  · intro hmp
    rcases retryGo_cases kw pid mp N factor fetchA (List.range N)
      ("None") with ⟨lastE, hE⟩ | ⟨a, ha, s, hs⟩
    · unfold search_with_retry
      rw [hE]
      simp [errorOutcome]
    · obtain ⟨-, herr, -, htot⟩ := pagesGo_ok kw pid mp (fetchA a)
        (pagesList mp) s _ (pagesList_pos mp) hs
      unfold search_with_retry
      rw [herr]
      simp only [Option.isSome_none, Bool.false_eq_true, false_iff]
      intro h0
      have hmp' : (1 : Int) ≤ (mp : Int) := by exact_mod_cast hmp
      rcases htot with h1 | h1 <;> omega

/-- Witness for claim C10: the retry-exhausted outcome of an always-500
transport reports zero pages with an error set; an all-empty-pages scan
reports max_pages with no error; and the signature equivalence holds at
a concrete failing transport. -/
theorem claim_C10_witness :
    (search_with_retry "kw" 7 1 2 2
      (fun _ _ => resp500)).result.total_pages_searched = 0 ∧
    (search_with_retry "kw" 7 1 2 2
      (fun _ _ => resp500)).result.error.isSome = true ∧
    (search_product_pages "kw" 7 3 (fun _ => ⟨200, none, none⟩)).2 =
      Except.ok (notFoundResult "kw" 3) ∧
    ((search_with_retry "kw" 7 1 2 2
        (fun _ _ => resp500)).result.error.isSome = true ↔
      (search_with_retry "kw" 7 1 2 2
        (fun _ _ => resp500)).result.total_pages_searched = 0) :=
  ⟨((claim_C10_pages_scanned_signature "kw" 7 1 2 2
      (fun _ _ => resp500) (fun _ => ⟨200, none, none⟩)).1
      (fun _ => ⟨"Server error: 500", rfl⟩)).1,
   ((claim_C10_pages_scanned_signature "kw" 7 1 2 2
      (fun _ _ => resp500) (fun _ => ⟨200, none, none⟩)).1
      (fun _ => ⟨"Server error: 500", rfl⟩)).2,
   (claim_C10_pages_scanned_signature "kw" 7 3 2 2
      (fun _ _ => resp500) (fun _ => ⟨200, none, none⟩)).2.1
      (fun _ => ⟨[], [], rfl, by simp⟩),
   (claim_C10_pages_scanned_signature "kw" 7 1 2 2
      (fun _ _ => resp500) (fun _ => ⟨200, none, none⟩)).2.2
      (by decide)⟩

end WBRanker
